import Mathlib

/-!
Verification development for the LxrBaker texture-baking add-on
(`BlenderLxrBakerAddon`).  The Python sources are shallowly embedded:
classes become structures, methods become pure functions, the mutable
operator/scene state becomes an explicit `OpState` record that every
operation threads, and Python exceptions become `Except PyError`.
Scalar shader-socket values are only ever stored and moved (never
computed with), so they are represented exactly as rationals.
-/

namespace LxrBaker

/-- `BakingPassConfiguration` from `object_bake_operator.py`: the engine
pass-type string, whether the output needs an alpha channel, and whether
the output is perceptual color. -/
structure BakingPassConfiguration where
  type : String
  use_alpha : Bool
  is_color : Bool
deriving DecidableEq, Repr

/-- The `BakingPass` enum members, in catalog declaration order. -/
inductive BakingPass where
  | DIFFUSE
  | DIFFUSE_WITH_ALPHA
  | ROUGHNESS
  | METALLIC
  | NORMAL
  | EMIT
deriving DecidableEq, Repr

/-- The `value` of each `BakingPass` enum member. -/
def BakingPass.value : BakingPass → BakingPassConfiguration
  | .DIFFUSE => ⟨"DIFFUSE", false, true⟩
  | .DIFFUSE_WITH_ALPHA => ⟨"DIFFUSE", true, true⟩
  | .ROUGHNESS => ⟨"ROUGHNESS", false, false⟩
  | .METALLIC => ⟨"METALLIC", false, false⟩
  | .NORMAL => ⟨"NORMAL", false, false⟩
  | .EMIT => ⟨"EMIT", false, true⟩

/-- Identifies an upstream node-output socket (`link.from_socket`):
the owning node's name and the socket name. -/
structure NodeSocketRef where
  node : String
  socket : String
deriving DecidableEq, Repr

/-- The observable state of one float input socket of the principled
BSDF node: its `default_value` and the `from_socket`s of the links
currently feeding it, in link order.  Blender stores links tree-wide;
since `switch_metallic_and_roughness` only ever removes/creates links
whose destination is the Metallic or Roughness socket, keeping each
socket's incoming-link list on the socket is an equivalent view. -/
structure SocketState where
  default_value : ℚ
  links : List NodeSocketRef
deriving DecidableEq, Repr

/-- A `ShaderNodeBsdfPrincipled` node, restricted to the two inputs the
add-on reads and writes (`inputs.get("Metallic")`, `inputs.get("Roughness")`). -/
structure PrincipledBsdfNode where
  metallic : SocketState
  roughness : SocketState
deriving DecidableEq, Repr

/-- Relevant fields of a `bpy.types.Image`.  The pixel contents are not
modelled; `has_data` records whether the image has pixel data. -/
structure ImageData where
  name : String
  has_data : Bool
  alpha_mode : String
  is_data_colorspace : Bool
  packed : Bool
  filepath : String
deriving DecidableEq, Repr

/-- A `ShaderNodeTexImage` node created by the operator: the image it
points at and its `select` flag. -/
structure TexImageNode where
  image : ImageData
  selected : Bool
deriving DecidableEq, Repr

/-- A node of a material's shader node tree.  `other` stands for any
node whose `bl_idname` is neither `ShaderNodeBsdfPrincipled` nor
`ShaderNodeTexImage` and carries that idname. -/
inductive ShaderNode where
  | principledBsdf (b : PrincipledBsdfNode)
  | texImage (n : TexImageNode)
  | other (idname : String)
deriving DecidableEq, Repr

/-- `node.bl_idname`. -/
def ShaderNode.bl_idname : ShaderNode → String
  | .principledBsdf _ => "ShaderNodeBsdfPrincipled"
  | .texImage _ => "ShaderNodeTexImage"
  | .other s => s

/-- `material.node_tree`: its node list.  The tree's `active` node
pointer is set by the operator but never read by any claim, so it is
not modelled. -/
structure NodeTree where
  nodes : List ShaderNode
deriving DecidableEq, Repr

/-- A `bpy.types.Material`; `node_tree` is `none` when the material has
no node tree. -/
structure Material where
  node_tree : Option NodeTree
deriving DecidableEq, Repr

/-- Relevant slice of a `bpy.types.Object`: name, `type`, selection
state, its mesh's UV-layer names, and the material names referenced by
its material slots (Blender slots hold references into the global
material table, modelled by name). -/
structure BlenderObject where
  name : String
  obj_type : String
  selected : Bool
  uv_layers : List String
  material_slots : List String
deriving DecidableEq, Repr

/-- Relevant slice of `bpy.data` plus the scene render settings:
the object table, the name-keyed material table, and the active render
engine identifier. -/
structure BlenderEnv where
  objects : List BlenderObject
  materials : List (String × Material)
  render_engine : String
deriving DecidableEq, Repr

/-- Python exceptions that the embedded operations can raise. -/
inductive PyError where
  | attributeError
  | indexError
  | saveError
deriving DecidableEq, Repr

/-- The operator return statuses used by the add-on (Python returns
singleton sets of these strings). -/
inductive ModalResult where
  | RUNNING_MODAL
  | FINISHED
  | CANCELLED
  | PASS_THROUGH
deriving DecidableEq, Repr

/-- One invocation of `bpy.ops.object.bake(...)`: the arguments the
operator passes that vary between passes. -/
structure BakeJob where
  pass_type : String
  uv_layer : String
  margin : Int
deriving DecidableEq, Repr

/-- The fields of `LxrObjectBakeOperatorProperties` (Blender property
definitions become plain fields; `IntProperty` values are integers). -/
structure OperatorProperties where
  target_object_prop : String
  image_name_prop : String
  is_image_save_to_file_prop : Bool
  image_path_prop : String
  image_width_prop : Int
  image_height_prop : Int
  uv_seam_margin_prop : Int
  uv_map_prop : String
  is_diffuse_pass_prop : Bool
  is_alpha_pass_prop : Bool
  is_roughness_pass_prop : Bool
  is_metallic_pass_prop : Bool
  is_normal_pass_prop : Bool
  is_emit_pass_prop : Bool
deriving DecidableEq, Repr

/-- The Python dictionary produced by `properties_to_dict` / consumed by
`copy_properties_from_dict`.  Its key set is fixed by the source, so it
is modelled as a record of optional fields: `none` means the key is
absent.  (`target_object_prop` is never serialized.) -/
structure PropsDict where
  image_name_prop : Option String := none
  is_image_save_to_file_prop : Option Bool := none
  image_path_prop : Option String := none
  image_width_prop : Option Int := none
  image_height_prop : Option Int := none
  uv_seam_margin_prop : Option Int := none
  uv_map_prop : Option String := none
  is_diffuse_pass_prop : Option Bool := none
  is_alpha_pass_prop : Option Bool := none
  is_roughness_pass_prop : Option Bool := none
  is_metallic_pass_prop : Option Bool := none
  is_normal_pass_prop : Option Bool := none
  is_emit_pass_prop : Option Bool := none
deriving DecidableEq, Repr

/-- Host-side facts the operator can only observe, not control:
the `bpy.app.is_job_running("OBJECT_BAKE")` answer for the current
tick, whether an `img.save(...)` call would succeed, and the external
`bpy.path.clean_name` sanitizer for image names. -/
structure HostEnv where
  job_running : Bool
  save_ok : Bool
  clean_name : String → String

/-- The mutable state of `LxrObjectBakeOperator` (its class-level
fields) together with the scene slice it mutates.  `custom_props` is
the `lxrbaker_properties` custom property that `execute` stores on the
target object; `saved_images` logs the image state produced by each
completed `save_result_image` call; `baking_jobs` logs each
`bpy.ops.object.bake` invocation. -/
structure OpState where
  props : OperatorProperties
  env : BlenderEnv
  custom_props : Option PropsDict
  pass_queue : List BakingPass
  num_passes : Nat
  running_pass : Option BakingPass
  current_image_node : Option TexImageNode
  timer : Bool
  status_text : Option String
  reports : List String
  saved_images : List ImageData
  baking_jobs : List BakeJob
deriving DecidableEq, Repr

/-- `LxrObjectBakeOperatorProperties.get_baking_passes`. -/
def get_baking_passes (p : OperatorProperties) : List BakingPass :=
  let passes : List (Bool × BakingPass) := [
    (p.is_diffuse_pass_prop && !p.is_alpha_pass_prop, BakingPass.DIFFUSE),
    (p.is_diffuse_pass_prop && p.is_alpha_pass_prop, BakingPass.DIFFUSE_WITH_ALPHA),
    (p.is_roughness_pass_prop, BakingPass.ROUGHNESS),
    (p.is_metallic_pass_prop, BakingPass.METALLIC),
    (p.is_normal_pass_prop, BakingPass.NORMAL),
    (p.is_emit_pass_prop, BakingPass.EMIT)]
  (passes.filter (fun q => q.1 == true)).map (fun q => q.2)

/-- `LxrObjectBakeOperatorProperties.get_image_name`. -/
def get_image_name (p : OperatorProperties) (baking_pass : BakingPass) : String :=
  p.image_name_prop ++ "-" ++ baking_pass.value.type.toLower

/-- `LxrObjectBakeOperatorProperties.properties_to_dict`. -/
def properties_to_dict (p : OperatorProperties) : PropsDict where
  image_name_prop := some p.image_name_prop
  is_image_save_to_file_prop := some p.is_image_save_to_file_prop
  image_path_prop := some p.image_path_prop
  image_width_prop := some p.image_width_prop
  image_height_prop := some p.image_height_prop
  uv_seam_margin_prop := some p.uv_seam_margin_prop
  uv_map_prop := some p.uv_map_prop
  is_diffuse_pass_prop := some p.is_diffuse_pass_prop
  is_alpha_pass_prop := some p.is_alpha_pass_prop
  is_roughness_pass_prop := some p.is_roughness_pass_prop
  is_metallic_pass_prop := some p.is_metallic_pass_prop
  is_normal_pass_prop := some p.is_normal_pass_prop
  is_emit_pass_prop := some p.is_emit_pass_prop

/-- `bpy.data.objects.get(name)`. -/
def data_objects_get (env : BlenderEnv) (name : String) : Option BlenderObject :=
  env.objects.find? (fun o => o.name == name)

/-- `LxrObjectBakeOperator.is_valid_target_obj`.  The conjunct
`obj.material_slots[0].material.node_tree != None` is modelled through
the material table; a slot whose material name is absent from the table
stands for a slot with no material (on which Python would raise; the
operator never reaches that state through `poll`/`invoke`, and this
model returns `false` there). -/
def is_valid_target_obj (env : BlenderEnv) (o : Option BlenderObject) : Bool :=
  match o with
  | none => false
  | some obj =>
    obj.obj_type == "MESH" && obj.selected && !obj.material_slots.isEmpty &&
      (match obj.material_slots.head? with
       | none => false
       | some mname =>
         match env.materials.lookup mname with
         | none => false
         | some m => m.node_tree.isSome)

/-- `LxrObjectBakeOperatorProperties.get_target_object_uv_maps`
(the `object_bake_operator.py` version, which validates via
`is_valid_target_obj`). -/
def get_target_object_uv_maps (env : BlenderEnv) (target_name : String) :
    List (String × String × String) :=
  match data_objects_get env target_name with
  | some obj =>
    if is_valid_target_obj env (some obj) then
      obj.uv_layers.map (fun uv => (uv, uv, ""))
    else [("NONE", "None", "")]
  | none => [("NONE", "None", "")]

/-- One `if dictionary.__contains__(key): self.key = dictionary[key]`
step of `copy_properties_from_dict`, for `image_name_prop`. -/
def upd_image_name (d : PropsDict) (p : OperatorProperties) : OperatorProperties :=
  match d.image_name_prop with
  | some v => { p with image_name_prop := v }
  | none => p

/-- Dictionary-copy step for `is_image_save_to_file_prop`. -/
def upd_is_image_save_to_file (d : PropsDict) (p : OperatorProperties) : OperatorProperties :=
  match d.is_image_save_to_file_prop with
  | some v => { p with is_image_save_to_file_prop := v }
  | none => p

/-- Dictionary-copy step for `image_path_prop`. -/
def upd_image_path (d : PropsDict) (p : OperatorProperties) : OperatorProperties :=
  match d.image_path_prop with
  | some v => { p with image_path_prop := v }
  | none => p

/-- Dictionary-copy step for `image_width_prop`. -/
def upd_image_width (d : PropsDict) (p : OperatorProperties) : OperatorProperties :=
  match d.image_width_prop with
  | some v => { p with image_width_prop := v }
  | none => p

/-- Dictionary-copy step for `image_height_prop`. -/
def upd_image_height (d : PropsDict) (p : OperatorProperties) : OperatorProperties :=
  match d.image_height_prop with
  | some v => { p with image_height_prop := v }
  | none => p

/-- Dictionary-copy step for `uv_seam_margin_prop`. -/
def upd_uv_seam_margin (d : PropsDict) (p : OperatorProperties) : OperatorProperties :=
  match d.uv_seam_margin_prop with
  | some v => { p with uv_seam_margin_prop := v }
  | none => p

/-- Dictionary-copy step for `uv_map_prop`: the value is adopted only
when it is among the currently valid UV-map enum values of the target
object (`self.get_target_object_uv_maps()`), otherwise the old value is
kept. -/
def upd_uv_map (env : BlenderEnv) (d : PropsDict) (p : OperatorProperties) : OperatorProperties :=
  match d.uv_map_prop with
  | some v =>
    let all_uv_map_enum_values :=
      (get_target_object_uv_maps env p.target_object_prop).map (fun t => t.1)
    if all_uv_map_enum_values.contains v then { p with uv_map_prop := v } else p
  | none => p

/-- Dictionary-copy step for `is_diffuse_pass_prop`. -/
def upd_is_diffuse (d : PropsDict) (p : OperatorProperties) : OperatorProperties :=
  match d.is_diffuse_pass_prop with
  | some v => { p with is_diffuse_pass_prop := v }
  | none => p

/-- Dictionary-copy step for `is_alpha_pass_prop`. -/
def upd_is_alpha (d : PropsDict) (p : OperatorProperties) : OperatorProperties :=
  match d.is_alpha_pass_prop with
  | some v => { p with is_alpha_pass_prop := v }
  | none => p

/-- Dictionary-copy step for `is_roughness_pass_prop`. -/
def upd_is_roughness (d : PropsDict) (p : OperatorProperties) : OperatorProperties :=
  match d.is_roughness_pass_prop with
  | some v => { p with is_roughness_pass_prop := v }
  | none => p

/-- Dictionary-copy step for `is_metallic_pass_prop`. -/
def upd_is_metallic (d : PropsDict) (p : OperatorProperties) : OperatorProperties :=
  match d.is_metallic_pass_prop with
  | some v => { p with is_metallic_pass_prop := v }
  | none => p

/-- Dictionary-copy step for `is_normal_pass_prop`. -/
def upd_is_normal (d : PropsDict) (p : OperatorProperties) : OperatorProperties :=
  match d.is_normal_pass_prop with
  | some v => { p with is_normal_pass_prop := v }
  | none => p

/-- Dictionary-copy step for `is_emit_pass_prop`. -/
def upd_is_emit (d : PropsDict) (p : OperatorProperties) : OperatorProperties :=
  match d.is_emit_pass_prop with
  | some v => { p with is_emit_pass_prop := v }
  | none => p

/-- `LxrObjectBakeOperatorProperties.copy_properties_from_dict`: the
thirteen guarded field assignments of the source, applied in source
order (innermost first). -/
def copy_properties_from_dict (env : BlenderEnv) (p : OperatorProperties) (d : PropsDict) :
    OperatorProperties :=
  upd_is_emit d (upd_is_normal d (upd_is_metallic d (upd_is_roughness d (upd_is_alpha d
    (upd_is_diffuse d (upd_uv_map env d (upd_uv_seam_margin d (upd_image_height d
      (upd_image_width d (upd_image_path d (upd_is_image_save_to_file d
        (upd_image_name d p))))))))))))

/-- The character class kept by the `re.sub` call in `get_image_path`
(pattern: negated class of backslash-w, underscore, dot, dash, slash),
for ASCII characters.  Inside a Python class, `\w` is `[A-Za-z0-9_]`
(ASCII part), `_` repeats the underscore, and the dot-dash-slash run
parses as the two-character RANGE from `'.'` (46) to `'/'` (47) — so
`'-'` (45) is NOT kept.  Python's `\w` additionally matches non-ASCII
word characters; this model covers ASCII strings. -/
def kept_by_charclass (c : Char) : Bool :=
  c.isAlphanum || c == '_' || ('.' ≤ c && c ≤ '/')

/-- The `re.sub` call of `get_image_path` ("remove illegal characters"
from the directory): every character not in the kept class becomes an
underscore. -/
def sanitize_image_path (s : String) : String :=
  ⟨s.data.map (fun c => if kept_by_charclass c then c else '_')⟩

/-- Python's `str.endswith`, on the character lists of the strings. -/
def str_ends_with (s suffix : String) : Bool :=
  List.isSuffixOf suffix.data s.data

/-- `LxrObjectBakeOperator.get_image_path`.  `bpy.path.clean_name` is a
host-library sanitizer external to this repository and is passed in as
`clean_name`. -/
def get_image_path (clean_name : String → String) (image_path_prop : String)
    (img_name : String) : String :=
  let img_path := sanitize_image_path image_path_prop
  let name := clean_name img_name
  (if str_ends_with img_path "/" then img_path else img_path ++ "/") ++ name ++ ".png"

/-- `pack_image` from `object_bake_operator.py`: packs the image and
clears a non-empty filepath. -/
def pack_image (img : ImageData) : ImageData :=
  let img := { img with packed := true }
  if img.filepath != "" then { img with filepath := "" } else img

/-- `LxrObjectBakeOperator.save_result_image`, as a function of the
image being saved.  Returns the image state after the call together
with the warnings it reports.  The external `img.save(...)` file write
succeeds iff `host.save_ok`; on failure the Python call raises, which
the source does not catch, so the model returns `.error .saveError`. -/
def save_result_image (host : HostEnv) (props : OperatorProperties) (img : ImageData) :
    Except PyError (ImageData × List String) :=
  if !img.has_data then
    .ok (img, ["Cannot save image " ++ img.name ++ " because it has not data."])
  else if props.is_image_save_to_file_prop then
    if host.save_ok then
      let file_path := get_image_path host.clean_name props.image_path_prop img.name
      .ok ({ img with packed := false, filepath := file_path }, [])
    else .error .saveError
  else
    .ok (pack_image img, [])

/-- `LxrObjectBakeOperator.switch_metallic_and_roughness`, reduced to
its net effect on the principled node's two sockets: the default
values are exchanged; all links into both sockets are removed and the
former feeders of Metallic are reconnected to Roughness and vice
versa.  Links into other sockets are untouched by the source and are
not represented here. -/
def switch_metallic_and_roughness (b : PrincipledBsdfNode) : PrincipledBsdfNode :=
  let metallic_value := b.metallic.default_value
  let metallic_linked_sockets := b.metallic.links
  let roughness_linked_sockets := b.roughness.links
  { metallic := { default_value := b.roughness.default_value, links := roughness_linked_sockets },
    roughness := { default_value := metallic_value, links := metallic_linked_sockets } }

/-- `LxrObjectBakeOperator.get_principled_bsdf_node`: the first node
whose `bl_idname` is `ShaderNodeBsdfPrincipled`, plus the warning the
method reports when more than one such node exists. -/
def get_principled_bsdf_node (nt : NodeTree) : Option PrincipledBsdfNode × List String :=
  let bsdf_nodes := nt.nodes.filter (fun n => n.bl_idname == "ShaderNodeBsdfPrincipled")
  let warns :=
    if 1 < bsdf_nodes.length then
      ["Baked metallic pass might be wrong. Found more than one Principled BSDF Node."]
    else []
  (match bsdf_nodes.head? with
   | some (ShaderNode.principledBsdf b) => some b
   | _ => none, warns)

/-- Applies `f` to the first `ShaderNodeBsdfPrincipled` node of a node
list (the node `get_principled_bsdf_node` returns and
`switch_metallic_and_roughness` mutates through its reference). -/
def update_bsdf_nodes (f : PrincipledBsdfNode → PrincipledBsdfNode) :
    List ShaderNode → List ShaderNode
  | [] => []
  | ShaderNode.principledBsdf b :: rest => ShaderNode.principledBsdf (f b) :: rest
  | n :: rest => n :: update_bsdf_nodes f rest

/-- In-place mutation of the first principled BSDF node of a tree. -/
def NodeTree.update_principled_bsdf (nt : NodeTree)
    (f : PrincipledBsdfNode → PrincipledBsdfNode) : NodeTree :=
  { nodes := update_bsdf_nodes f nt.nodes }

/-- Updates the entry of the name-keyed material table holding the
given material name (mutation of the `bpy.types.Material` object all
slots with that name reference). -/
def assoc_update (store : List (String × Material)) (key : String) (m : Material) :
    List (String × Material) :=
  store.map (fun q => if q.1 = key then (q.1, m) else q)

/-- `LxrObjectBakeOperator.get_target_object`. -/
def get_target_object (s : OpState) : Option BlenderObject :=
  data_objects_get s.env s.props.target_object_prop

/-- The material name held by the target object's first material slot
(`self.get_target_object().material_slots[0]`).  Accessing a slot on a
`None` object raises `AttributeError`; indexing an empty slot list
raises `IndexError`. -/
def get_target_material_name (s : OpState) : Except PyError String :=
  match get_target_object s with
  | none => .error .attributeError
  | some obj =>
    match obj.material_slots.head? with
    | none => .error .indexError
    | some n => .ok n

/-- `LxrObjectBakeOperator.get_target_material`. -/
def get_target_material (s : OpState) : Except PyError Material :=
  match get_target_material_name s with
  | .error e => .error e
  | .ok n =>
    match s.env.materials.lookup n with
    | none => .error .attributeError
    | some m => .ok m

/-- Writes a new node tree into the target object's first-slot
material (the in-place mutations the operator performs through
`self.get_target_material().node_tree`). -/
def set_target_material_tree (s : OpState) (nt : NodeTree) : Except PyError OpState :=
  match get_target_material_name s with
  | .error e => .error e
  | .ok n =>
    .ok { s with env := { s.env with materials := assoc_update s.env.materials n ⟨some nt⟩ } }

/-- Lines 392–405 of `bake_image_pass`: set `_running_pass` and invoke
`bpy.ops.object.bake` — a METALLIC pass is submitted to the engine as a
ROUGHNESS-type bake. -/
def start_bake (s : OpState) (baking_pass : BakingPass) : OpState :=
  let pass_str :=
    if baking_pass = BakingPass.METALLIC then BakingPass.ROUGHNESS.value.type
    else baking_pass.value.type
  { s with
    running_pass := some baking_pass,
    baking_jobs := s.baking_jobs ++
      [{ pass_type := pass_str, uv_layer := s.props.uv_map_prop,
         margin := s.props.uv_seam_margin_prop }] }

/-- `LxrObjectBakeOperator.bake_image_pass`.  The image lookup /
rename-aside / resize logic of lines 345–373 operates on the external
`bpy.data.images` table and is summarized by the `img` argument (the
resolved destination image); the normalization of lines 374–375 and
everything from line 377 on is modelled.  The tree's `active`-node
pointer (line 382) has no observable effect in any claim and is not
modelled. -/
def bake_image_pass (img : ImageData) (baking_pass : BakingPass) (s : OpState) :
    Except PyError OpState :=
  let pass_config := baking_pass.value
  let img := { img with
    alpha_mode := if pass_config.use_alpha then "STRAIGHT" else "NONE",
    is_data_colorspace := !pass_config.is_color }
  match get_target_material s with
  | .error e => .error e
  | .ok mat =>
    match mat.node_tree with
    | none => .error .attributeError
    | some nt =>
      let node : TexImageNode := { image := img, selected := true }
      let nt : NodeTree := { nodes := nt.nodes ++ [ShaderNode.texImage node] }
      match set_target_material_tree s nt with
      | .error e => .error e
      | .ok s =>
        let s := { s with current_image_node := some node }
        if baking_pass = BakingPass.METALLIC then
          let pr := get_principled_bsdf_node nt
          let s := { s with reports := s.reports ++ pr.2 }
          match pr.1 with
          | none =>
            .ok { s with reports := s.reports ++
              ["Cannot bake metallic pass. Could not find Principled BSDF Node."] }
          | some _ =>
            match set_target_material_tree s
                (nt.update_principled_bsdf switch_metallic_and_roughness) with
            | .error e => .error e
            | .ok s => .ok (start_bake s baking_pass)
        else .ok (start_bake s baking_pass)

/-- `LxrObjectBakeOperator.cleanup_after_bake`: saves and detaches the
current temporary image node if one exists, undoes the
metallic/roughness swap if the finished pass was METALLIC, and clears
`_running_pass`. -/
def cleanup_after_bake (host : HostEnv) (s : OpState) : Except PyError OpState :=
  let step1 : Except PyError OpState :=
    match s.current_image_node with
    | none => .ok s
    | some node =>
      match save_result_image host s.props node.image with
      | .error e => .error e
      | .ok (img1, warns) =>
        match get_target_material s with
        | .error e => .error e
        | .ok mat =>
          match mat.node_tree with
          | none => .error .attributeError
          | some nt =>
            match set_target_material_tree s
                { nodes := nt.nodes.erase (ShaderNode.texImage node) } with
            | .error e => .error e
            | .ok s =>
              .ok { s with current_image_node := none,
                           reports := s.reports ++ warns,
                           saved_images := s.saved_images ++ [img1] }
  match step1 with
  | .error e => .error e
  | .ok s =>
    let step2 : Except PyError OpState :=
      if s.running_pass = some BakingPass.METALLIC then
        match get_target_material s with
        | .error e => .error e
        | .ok mat =>
          match mat.node_tree with
          | none => .error .attributeError
          | some nt =>
            let pr := get_principled_bsdf_node nt
            let s := { s with reports := s.reports ++ pr.2 }
            match pr.1 with
            | none => .ok s
            | some _ =>
              set_target_material_tree s
                (nt.update_principled_bsdf switch_metallic_and_roughness)
      else .ok s
    match step2 with
    | .error e => .error e
    | .ok s => .ok { s with running_pass := none }

/-- `LxrObjectBakeOperator.bake_next_pass`.  `resolve` abstracts the
image lookup/creation of lines 345–373 (which image each pass writes
into); Python's `list.pop()` removes the LAST element. -/
def bake_next_pass (host : HostEnv) (resolve : BakingPass → ImageData) (s : OpState) :
    Except PyError (OpState × ModalResult) :=
  if host.job_running then .ok (s, ModalResult.RUNNING_MODAL)
  else
    match cleanup_after_bake host s with
    | .error e => .error e
    | .ok s =>
      match s.pass_queue.getLast? with
      | none => .ok (s, ModalResult.FINISHED)
      | some next_pass =>
        let s := { s with pass_queue := s.pass_queue.dropLast }
        match bake_image_pass (resolve next_pass) next_pass s with
        | .error e => .error e
        | .ok s => .ok (s, ModalResult.RUNNING_MODAL)

/-- `LxrObjectBakeOperator.execute`: stores the chosen properties as
the object's `lxrbaker_properties` custom property, builds the pass
queue from `get_baking_passes`, resets `_running_pass`, registers the
modal handler and a 1-second timer, and returns RUNNING_MODAL.  The
render engine and the rest of the scene are untouched. -/
def execute (s : OpState) : OpState × ModalResult :=
  let queue := get_baking_passes s.props
  ({ s with
      custom_props := some (properties_to_dict s.props),
      pass_queue := queue,
      num_passes := queue.length,
      running_pass := none,
      timer := true }, ModalResult.RUNNING_MODAL)

/-- The events `LxrObjectBakeOperator.modal` distinguishes. -/
inductive ModalEvent where
  | TIMER
  | ESC
  | END
  | otherEvent (t : String)
deriving DecidableEq, Repr

/-- The progress string published to the status bar each timer tick. -/
def status_string (s : OpState) (node : TexImageNode) : String :=
  "🍞 Baking (" ++ toString (s.num_passes - s.pass_queue.length) ++ "/" ++
    toString s.num_passes ++ "): " ++ node.image.name ++
    " | Press END to cancel baking after current pass."

/-- Event dispatch of `LxrObjectBakeOperator.modal`: TIMER ticks drive
`bake_next_pass` and republish the status text; ESC/END cancel with a
warning; all other events pass through. -/
def modal_event_result (host : HostEnv) (resolve : BakingPass → ImageData) (ev : ModalEvent)
    (s : OpState) : Except PyError (OpState × ModalResult) :=
  match ev with
  | ModalEvent.TIMER =>
    match bake_next_pass host resolve s with
    | .error e => .error e
    | .ok (s1, r) =>
      let s1 :=
        match s1.current_image_node with
        | some node => { s1 with status_text := some (status_string s1 node) }
        | none => s1
      .ok (s1, r)
  | ModalEvent.ESC =>
    .ok ({ s with reports := s.reports ++ ["Baking was cancelled."] }, ModalResult.CANCELLED)
  | ModalEvent.END =>
    .ok ({ s with reports := s.reports ++ ["Baking was cancelled."] }, ModalResult.CANCELLED)
  | ModalEvent.otherEvent _ => .ok (s, ModalResult.PASS_THROUGH)

/-- `LxrObjectBakeOperator.modal`, continued: on a FINISHED or
CANCELLED result the timer is removed, `cleanup_after_bake` runs and
the status text is cleared. -/
def modal (host : HostEnv) (resolve : BakingPass → ImageData) (ev : ModalEvent) (s : OpState) :
    Except PyError (OpState × ModalResult) :=
  match modal_event_result host resolve ev s with
  | .error e => .error e
  | .ok (s, result) =>
    if result = ModalResult.FINISHED ∨ result = ModalResult.CANCELLED then
      let s := { s with timer := false }
      match cleanup_after_bake host s with
      | .error e => .error e
      | .ok s => .ok ({ s with status_text := none }, result)
    else .ok (s, result)

/-- Frame property of one operator step: the operator properties, the
object table and the render engine are unchanged, and no entry of the
material table other than (possibly) the target object's first-slot
material is changed. -/
def preserves_other_materials (s s1 : OpState) : Prop :=
  s1.props = s.props ∧ s1.env.objects = s.env.objects ∧
  s1.env.render_engine = s.env.render_engine ∧
  ∀ k : String, (∀ n, get_target_material_name s = Except.ok n → k ≠ n) →
    s1.env.materials.lookup k = s.env.materials.lookup k

lemma get_target_material_name_congr {s s1 : OpState}
    (hp : s1.props = s.props) (ho : s1.env.objects = s.env.objects) :
    get_target_material_name s1 = get_target_material_name s := by
  simp only [get_target_material_name, get_target_object, data_objects_get, hp, ho]

lemma preserves_of_env_eq {s s1 : OpState} (hp : s1.props = s.props) (he : s1.env = s.env) :
    preserves_other_materials s s1 :=
  ⟨hp, by rw [he], by rw [he], fun k _ => by rw [he]⟩

lemma preserves_trans {s1 s2 s3 : OpState}
    (h12 : preserves_other_materials s1 s2) (h23 : preserves_other_materials s2 s3) :
    preserves_other_materials s1 s3 := by
  obtain ⟨p12, o12, e12, m12⟩ := h12
  obtain ⟨p23, o23, e23, m23⟩ := h23
  refine ⟨p23.trans p12, o23.trans o12, e23.trans e12, fun k hk => ?_⟩
  have hname : get_target_material_name s2 = get_target_material_name s1 :=
    get_target_material_name_congr p12 o12
  have hk2 : ∀ n, get_target_material_name s2 = Except.ok n → k ≠ n := by
    intro n hn
    apply hk
    rw [← hname]
    exact hn
  rw [m23 k hk2, m12 k hk]

lemma lookup_assoc_update_ne (store : List (String × Material)) (key k : String)
    (m : Material) (hk : k ≠ key) :
    (assoc_update store key m).lookup k = store.lookup k := by
  induction store with
  | nil => rfl
  | cons q t ih =>
    obtain ⟨a, b⟩ := q
    by_cases hq : a = key
    · subst hq
      show List.lookup k ((if a = a then (a, m) else (a, b)) :: assoc_update t a m) = _
      rw [if_pos rfl, List.lookup_cons, List.lookup_cons]
      have hkk : (k == a) = false := by simp [hk]
      simp only [hkk]
      exact ih
    · show List.lookup k ((if a = key then (a, m) else (a, b)) :: assoc_update t key m) = _
      rw [if_neg hq, List.lookup_cons, List.lookup_cons]
      cases hka : k == a
      · simp only [hka]
        exact ih
      · simp only [hka]

lemma set_target_material_tree_frame {s : OpState} {nt : NodeTree} {s1 : OpState}
    (h : set_target_material_tree s nt = .ok s1) : preserves_other_materials s s1 := by
  unfold set_target_material_tree at h
  cases hname : get_target_material_name s with
  | error e => rw [hname] at h; exact Except.noConfusion h
  | ok n =>
    rw [hname] at h
    injection h with h
    subst h
    exact ⟨rfl, rfl, rfl, fun k hk => lookup_assoc_update_ne _ _ _ _ (hk n hname)⟩

lemma bake_image_pass_frame {img : ImageData} {bp : BakingPass} {s s1 : OpState}
    (h : bake_image_pass img bp s = .ok s1) : preserves_other_materials s s1 := by
  simp only [bake_image_pass] at h
  split at h
  · exact Except.noConfusion h
  · split at h
    · exact Except.noConfusion h
    · split at h
      · exact Except.noConfusion h
      · rename_i sA hsetA
        have hA : preserves_other_materials s sA := set_target_material_tree_frame hsetA
        split at h
        · split at h
          · injection h with h
            subst h
            exact preserves_trans hA (preserves_of_env_eq rfl rfl)
          · split at h
            · exact Except.noConfusion h
            · rename_i sB hsetB
              injection h with h
              subst h
              refine preserves_trans hA (preserves_trans ?_ (preserves_trans
                (set_target_material_tree_frame hsetB) ?_))
              · exact preserves_of_env_eq rfl rfl
              · exact preserves_of_env_eq rfl rfl
        · injection h with h
          subst h
          exact preserves_trans hA (preserves_of_env_eq rfl rfl)

lemma cleanup_after_bake_frame {host : HostEnv} {s s1 : OpState}
    (h : cleanup_after_bake host s = .ok s1) : preserves_other_materials s s1 := by
  simp only [cleanup_after_bake] at h
  split at h
  · exact Except.noConfusion h
  · rename_i sA hstep1
    have hA : preserves_other_materials s sA := by
      split at hstep1
      · injection hstep1 with hstep1
        subst hstep1
        exact preserves_of_env_eq rfl rfl
      · split at hstep1
        · exact Except.noConfusion hstep1
        · split at hstep1
          · exact Except.noConfusion hstep1
          · split at hstep1
            · exact Except.noConfusion hstep1
            · split at hstep1
              · exact Except.noConfusion hstep1
              · rename_i sET hset
                injection hstep1 with hstep1
                subst hstep1
                exact preserves_trans (set_target_material_tree_frame hset)
                  (preserves_of_env_eq rfl rfl)
    split at h
    · exact Except.noConfusion h
    · rename_i sB hstep2
      have hB : preserves_other_materials sA sB := by
        split at hstep2
        · split at hstep2
          · exact Except.noConfusion hstep2
          · split at hstep2
            · exact Except.noConfusion hstep2
            · split at hstep2
              · injection hstep2 with hstep2
                subst hstep2
                exact preserves_of_env_eq rfl rfl
              · refine preserves_trans ?_ (set_target_material_tree_frame hstep2)
                exact preserves_of_env_eq rfl rfl
        · injection hstep2 with hstep2
          subst hstep2
          exact preserves_of_env_eq rfl rfl
      injection h with h
      subst h
      exact preserves_trans hA (preserves_trans hB (preserves_of_env_eq rfl rfl))

lemma bake_next_pass_frame {host : HostEnv} {resolve : BakingPass → ImageData}
    {s s1 : OpState} {r : ModalResult}
    (h : bake_next_pass host resolve s = .ok (s1, r)) : preserves_other_materials s s1 := by
  simp only [bake_next_pass] at h
  split at h
  · injection h with h
    injection h with h1 h2
    subst h1
    exact preserves_of_env_eq rfl rfl
  · split at h
    · exact Except.noConfusion h
    · rename_i sA hclean
      have hA : preserves_other_materials s sA := cleanup_after_bake_frame hclean
      split at h
      · injection h with h
        injection h with h1 h2
        subst h1
        exact hA
      · split at h
        · exact Except.noConfusion h
        · rename_i sB hbake
          injection h with h
          injection h with h1 h2
          subst h1
          refine preserves_trans hA (preserves_trans ?_ (bake_image_pass_frame hbake))
          exact preserves_of_env_eq rfl rfl

lemma modal_event_result_frame {host : HostEnv} {resolve : BakingPass → ImageData}
    {ev : ModalEvent} {s s1 : OpState} {r : ModalResult}
    (h : modal_event_result host resolve ev s = .ok (s1, r)) :
    preserves_other_materials s s1 := by
  simp only [modal_event_result] at h
  split at h
  · split at h
    · exact Except.noConfusion h
    · rename_i sA rA hbake
      injection h with h
      injection h with h1 h2
      have hA : preserves_other_materials s sA := bake_next_pass_frame hbake
      subst h2
      split at h1 <;> (subst h1; exact preserves_trans hA (preserves_of_env_eq rfl rfl))
  · injection h with h
    injection h with h1 h2
    subst h1
    exact preserves_of_env_eq rfl rfl
  · injection h with h
    injection h with h1 h2
    subst h1
    exact preserves_of_env_eq rfl rfl
  · injection h with h
    injection h with h1 h2
    subst h1
    exact preserves_of_env_eq rfl rfl

lemma modal_frame {host : HostEnv} {resolve : BakingPass → ImageData}
    {ev : ModalEvent} {s s1 : OpState} {r : ModalResult}
    (h : modal host resolve ev s = .ok (s1, r)) : preserves_other_materials s s1 := by
  simp only [modal] at h
  split at h
  · exact Except.noConfusion h
  · rename_i sA rA hstage
    have hA : preserves_other_materials s sA := modal_event_result_frame hstage
    split at h
    · split at h
      · exact Except.noConfusion h
      · rename_i sB hclean
        injection h with h
        injection h with h1 h2
        subst h1
        refine preserves_trans hA (preserves_trans ?_ (preserves_trans
          (cleanup_after_bake_frame hclean) ?_))
        · exact preserves_of_env_eq rfl rfl
        · exact preserves_of_env_eq rfl rfl
    · injection h with h
      injection h with h1 h2
      subst h1
      exact hA

lemma get_principled_bsdf_node_append_tex (nt : NodeTree) (n : TexImageNode) :
    get_principled_bsdf_node { nodes := nt.nodes ++ [ShaderNode.texImage n] } =
      get_principled_bsdf_node nt := by
  have hfalse : (ShaderNode.bl_idname (ShaderNode.texImage n) == "ShaderNodeBsdfPrincipled")
      = false := rfl
  simp [get_principled_bsdf_node, List.filter_append, hfalse]

/-! ## Claim C1: metallic/roughness swap -/

/-- Node A's output socket of the C1 scenario. -/
def nodeA_output : NodeSocketRef := ⟨"A", "Output"⟩

/-- The C1 scenario: Metallic has scalar value 0.2 and no incoming
connection, Roughness has scalar value 0.6 and one incoming connection
from node A's output. -/
def bsdf_c1 : PrincipledBsdfNode :=
  { metallic := { default_value := 2/10, links := [] },
    roughness := { default_value := 6/10, links := [nodeA_output] } }

/-- C1 counterexample: the claim states that after the swap the
Metallic input is unconnected and the Roughness input is connected to
node A's output.  The code does the opposite: it reconnects the former
feeders of Roughness (node A) to Metallic and the former feeders of
Metallic (none) to Roughness, so after the swap Metallic is connected
to node A and Roughness is unconnected. -/
theorem C1_claim_counterexample :
    ¬ ((switch_metallic_and_roughness bsdf_c1).metallic.links = [] ∧
       (switch_metallic_and_roughness bsdf_c1).roughness.links = [nodeA_output]) := by
  decide

/-- C1 amended: starting from Metallic = 0.2 unconnected and
Roughness = 0.6 connected to node A, the swap yields Metallic = 0.6
CONNECTED to node A's output and Roughness = 0.2 UNCONNECTED (value and
wiring are both swapped, with the wiring crossing over to the other
socket); applying the swap again restores exactly the original values
and connections, and in general the swap is an involution. -/
theorem C1_swap_and_revert_amended :
    switch_metallic_and_roughness bsdf_c1 =
      { metallic := { default_value := 6/10, links := [nodeA_output] },
        roughness := { default_value := 2/10, links := [] } } ∧
    switch_metallic_and_roughness (switch_metallic_and_roughness bsdf_c1) = bsdf_c1 ∧
    ∀ b : PrincipledBsdfNode,
      switch_metallic_and_roughness (switch_metallic_and_roughness b) = b :=
  ⟨rfl, rfl, fun _ => rfl⟩

/-! ## Claim C8: DIFFUSE and DIFFUSE_WITH_ALPHA are mutually exclusive -/

/-- C8: for every configuration of the pass toggles, the list returned
by `get_baking_passes` never contains both DIFFUSE and
DIFFUSE_WITH_ALPHA: their guards `diffuse AND NOT alpha` and
`diffuse AND alpha` cannot both hold. -/
theorem C8_diffuse_alpha_mutually_exclusive (p : OperatorProperties) :
    ¬ (BakingPass.DIFFUSE ∈ get_baking_passes p ∧
       BakingPass.DIFFUSE_WITH_ALPHA ∈ get_baking_passes p) := by
  rcases p with ⟨t, nm, sf, pa, w, ht, mg, uv, d, a, r, mt, no, e⟩
  cases d <;> cases a <;> cases r <;> cases mt <;> cases no <;> cases e <;>
    simp [get_baking_passes]

/-! ## Claim C9: output path composition and directory sanitization -/

/-- Modelled from the spec: the sanitizer the spec claims, which keeps
every character in A-Za-z0-9, underscore, dot, DASH and slash and
replaces every other character with an underscore. -/
def spec_claimed_kept (c : Char) : Bool :=
  c.isAlphanum || c == '_' || c == '.' || c == '-' || c == '/'

/-- Modelled from the spec: directory sanitization as the spec words it. -/
def spec_sanitize_dir (s : String) : String :=
  ⟨s.data.map (fun c => if spec_claimed_kept c then c else '_')⟩

/-- C9 counterexample: the regex character class does NOT keep the dash
(the dot-dash-slash run parses as the range from dot to slash), so on
input "xy-z" the code produces "xy_z" while the claimed sanitizer would
keep "xy-z". -/
theorem C9_claim_counterexample :
    sanitize_image_path "xy-z" = "xy_z" ∧ spec_sanitize_dir "xy-z" = "xy-z" ∧
      sanitize_image_path "xy-z" ≠ spec_sanitize_dir "xy-z" := by
  refine ⟨by decide, by decide, by decide⟩

/-- C9 amended: the output path is composed as
sanitized-directory / cleaned-image-name .png (the slash is added only
when the sanitized directory does not already end with one), and the
directory sanitization keeps exactly the ASCII word characters
A-Za-z0-9_ plus dot and slash, replacing every other character — in
particular the dash — with an underscore.  (Python's backslash-w would
additionally keep non-ASCII word characters; this statement covers the
ASCII alphabet.) -/
theorem C9_path_sanitization_amended :
    (∀ (cn : String → String) (dir name : String),
      str_ends_with (sanitize_image_path dir) "/" = false →
      get_image_path cn dir name = sanitize_image_path dir ++ "/" ++ cn name ++ ".png") ∧
    (∀ s : String, (∀ c ∈ s.data, kept_by_charclass c = true) → sanitize_image_path s = s) ∧
    (∀ (s : String) (c : Char), c ∈ (sanitize_image_path s).data → kept_by_charclass c = true) ∧
    sanitize_image_path "-" = "_" := by
  refine ⟨?_, ?_, ?_, by decide⟩
  · intro cn dir name h
    simp only [get_image_path, h, Bool.false_eq_true, if_false]
  · intro s hs
    cases s with
    | mk data =>
      show String.mk (data.map _) = String.mk data
      congr 1
      induction data with
      | nil => rfl
      | cons c t ih =>
        simp only [List.map_cons, List.cons.injEq]
        constructor
        · simp [hs c (by simp)]
        · exact ih (fun x hx => hs x (by simp [hx]))
  · intro s c hc
    obtain ⟨a, _, ha⟩ := List.mem_map.mp hc
    by_cases hka : kept_by_charclass a = true
    · rw [← ha]
      simp [hka]
    · rw [← ha]
      simp [hka]
      decide

/-- C9 witness: the amended composition rule applied to the concrete
directory "out" and image name "img". -/
theorem C9_witness :
    get_image_path id "out" "img" = sanitize_image_path "out" ++ "/" ++ id "img" ++ ".png" :=
  C9_path_sanitization_amended.1 id "out" "img" (by decide)

/-! ## Claim C7: to_map / from_map round trip -/

/-- C7: for every configuration whose UV-map value is valid for the
target object, serializing with `properties_to_dict` and applying
`copy_properties_from_dict` to a fresh configuration for the same
target yields a configuration equal to the original on every
serialized field (and on the shared target reference); and
`copy_properties_from_dict` overwrites only the fields present in the
dictionary — the empty dictionary changes nothing, and a dictionary
holding a single key changes exactly that field (the UV-map key only
when its value is currently valid). -/
theorem C7_roundtrip_and_partial_update :
    (∀ (env : BlenderEnv) (orig fresh : OperatorProperties),
      fresh.target_object_prop = orig.target_object_prop →
      ((get_target_object_uv_maps env orig.target_object_prop).map (fun t => t.1)).contains
          orig.uv_map_prop = true →
      copy_properties_from_dict env fresh (properties_to_dict orig) =
        { orig with target_object_prop := fresh.target_object_prop }) ∧
    (∀ (env : BlenderEnv) (p : OperatorProperties),
      copy_properties_from_dict env p {} = p) ∧
    (∀ (env : BlenderEnv) (p : OperatorProperties) (v : String),
      copy_properties_from_dict env p { image_name_prop := some v } =
        { p with image_name_prop := v }) ∧
    (∀ (env : BlenderEnv) (p : OperatorProperties) (v : Bool),
      copy_properties_from_dict env p { is_image_save_to_file_prop := some v } =
        { p with is_image_save_to_file_prop := v }) ∧
    (∀ (env : BlenderEnv) (p : OperatorProperties) (v : String),
      copy_properties_from_dict env p { image_path_prop := some v } =
        { p with image_path_prop := v }) ∧
    (∀ (env : BlenderEnv) (p : OperatorProperties) (v : Int),
      copy_properties_from_dict env p { image_width_prop := some v } =
        { p with image_width_prop := v }) ∧
    (∀ (env : BlenderEnv) (p : OperatorProperties) (v : Int),
      copy_properties_from_dict env p { image_height_prop := some v } =
        { p with image_height_prop := v }) ∧
    (∀ (env : BlenderEnv) (p : OperatorProperties) (v : Int),
      copy_properties_from_dict env p { uv_seam_margin_prop := some v } =
        { p with uv_seam_margin_prop := v }) ∧
    (∀ (env : BlenderEnv) (p : OperatorProperties) (v : String),
      copy_properties_from_dict env p { uv_map_prop := some v } =
        if ((get_target_object_uv_maps env p.target_object_prop).map (fun t => t.1)).contains v
        then { p with uv_map_prop := v } else p) ∧
    (∀ (env : BlenderEnv) (p : OperatorProperties) (v : Bool),
      copy_properties_from_dict env p { is_diffuse_pass_prop := some v } =
        { p with is_diffuse_pass_prop := v }) ∧
    (∀ (env : BlenderEnv) (p : OperatorProperties) (v : Bool),
      copy_properties_from_dict env p { is_alpha_pass_prop := some v } =
        { p with is_alpha_pass_prop := v }) ∧
    (∀ (env : BlenderEnv) (p : OperatorProperties) (v : Bool),
      copy_properties_from_dict env p { is_roughness_pass_prop := some v } =
        { p with is_roughness_pass_prop := v }) ∧
    (∀ (env : BlenderEnv) (p : OperatorProperties) (v : Bool),
      copy_properties_from_dict env p { is_metallic_pass_prop := some v } =
        { p with is_metallic_pass_prop := v }) ∧
    (∀ (env : BlenderEnv) (p : OperatorProperties) (v : Bool),
      copy_properties_from_dict env p { is_normal_pass_prop := some v } =
        { p with is_normal_pass_prop := v }) ∧
    (∀ (env : BlenderEnv) (p : OperatorProperties) (v : Bool),
      copy_properties_from_dict env p { is_emit_pass_prop := some v } =
        { p with is_emit_pass_prop := v }) := by
  refine ⟨?_, fun env p => rfl, fun env p v => rfl, fun env p v => rfl, fun env p v => rfl,
    fun env p v => rfl, fun env p v => rfl, fun env p v => rfl, fun env p v => rfl,
    fun env p v => rfl, fun env p v => rfl, fun env p v => rfl, fun env p v => rfl,
    fun env p v => rfl, fun env p v => rfl⟩
  intro env orig fresh htarget hmem
  rw [← htarget] at hmem
  simp [copy_properties_from_dict, properties_to_dict, upd_image_name,
    upd_is_image_save_to_file, upd_image_path, upd_image_width, upd_image_height,
    upd_uv_seam_margin, upd_uv_map, upd_is_diffuse, upd_is_alpha, upd_is_roughness,
    upd_is_metallic, upd_is_normal, upd_is_emit, htarget, hmem]
  rw [if_pos hmem]
  simp

/-- A valid mesh target object used by concrete scenarios. -/
def mesh_obj : BlenderObject := ⟨"Cube", "MESH", true, ["UVMap"], ["Mat"]⟩

/-- A scene with one mesh object whose single material has an empty
node tree. -/
def simple_env : BlenderEnv := ⟨[mesh_obj], [("Mat", ⟨some ⟨[]⟩⟩)], "CYCLES"⟩

/-- An original configuration for `mesh_obj` with a valid UV map. -/
def props_orig : OperatorProperties :=
  ⟨"Cube", "CubeImg", true, "//tex", 512, 256, 4, "UVMap", true, true, false, true, false, true⟩

/-- A fresh default-like configuration for the same target object. -/
def props_fresh : OperatorProperties :=
  ⟨"Cube", "Cube", false, "//", 1024, 1024, 16, "NONE", true, false, true, false, true, false⟩

/-- C7 witness: the round trip reproduces the original configuration
on the concrete scene. -/
theorem C7_witness :
    copy_properties_from_dict simple_env props_fresh (properties_to_dict props_orig) =
      { props_orig with target_object_prop := props_fresh.target_object_prop } :=
  C7_roundtrip_and_partial_update.1 simple_env props_orig props_fresh rfl (by decide)

/-- Decidable equality of `Except` results, for evaluating concrete
runs. -/
instance exceptDecidableEq {ε α : Type} [DecidableEq ε] [DecidableEq α] :
    DecidableEq (Except ε α) := fun a b =>
  match a, b with
  | .error e1, .error e2 =>
    if h : e1 = e2 then isTrue (by rw [h])
    else isFalse (by intro hc; injection hc with h2; exact h h2)
  | .error _, .ok _ => isFalse (by intro hc; exact Except.noConfusion hc)
  | .ok _, .error _ => isFalse (by intro hc; exact Except.noConfusion hc)
  | .ok a1, .ok a2 =>
    if h : a1 = a2 then isTrue (by rw [h])
    else isFalse (by intro hc; injection hc with h2; exact h h2)

/-! ## Concrete scenario fixtures -/

/-- A host where no bake job is running and saving succeeds. -/
def host0 : HostEnv := ⟨false, true, fun n => n⟩

/-- A host where a bake job is currently running. -/
def busy_host : HostEnv := ⟨true, true, fun n => n⟩

/-- A host where the external file write fails. -/
def host_savefail : HostEnv := ⟨false, false, fun n => n⟩

/-- A constant image resolver. -/
def resolve0 : BakingPass → ImageData := fun _ => ⟨"img", true, "NONE", false, false, ""⟩

/-- A resolved image with pixel data. -/
def img0 : ImageData := ⟨"img", true, "NONE", false, false, ""⟩

/-- A quiescent operator state over `simple_env` with the fresh
configuration. -/
def base_state : OpState :=
  { props := props_fresh
    env := simple_env
    custom_props := none
    pass_queue := []
    num_passes := 0
    running_pass := none
    current_image_node := none
    timer := false
    status_text := none
    reports := []
    saved_images := []
    baking_jobs := [] }

/-! ## Claim C5: render engine restoration -/

/-- The C5 scenario: the active render engine is the rasterizing
engine, not the path-traced one, when the operator starts. -/
def c5_state : OpState :=
  { base_state with env := { simple_env with render_engine := "BLENDER_EEVEE" } }

/-- C5 counterexample: `execute` does NOT switch the active render
engine to the required path-traced engine ("CYCLES"): starting from
"BLENDER_EEVEE" the engine is still "BLENDER_EEVEE" afterwards.  No
switch is recorded, so there is nothing for FINISHED/CANCELLED to
restore. -/
theorem C5_claim_counterexample :
    (execute c5_state).1.env.render_engine = "BLENDER_EEVEE" ∧
      ("BLENDER_EEVEE" : String) ≠ "CYCLES" :=
  ⟨rfl, by decide⟩

/-- C5 amended: the operator never reads or writes the render-engine
setting at all — neither `execute` nor any successful `modal` step
changes it — so the render engine after the operation trivially equals
its value before, but no switch to the path-traced engine ever
happens. -/
theorem C5_render_engine_unchanged_amended :
    (∀ s : OpState, (execute s).1.env.render_engine = s.env.render_engine) ∧
    (∀ (host : HostEnv) (resolve : BakingPass → ImageData) (ev : ModalEvent) (s s1 : OpState)
        (r : ModalResult), modal host resolve ev s = .ok (s1, r) →
      s1.env.render_engine = s.env.render_engine) := by
  refine ⟨fun s => rfl, fun host resolve ev s s1 r h => ?_⟩
  exact (modal_frame h).2.2.1

/-- The state after one successful TIMER tick on `c5_state`. -/
def c5_after_tick : OpState :=
  match modal host0 resolve0 ModalEvent.TIMER c5_state with
  | .ok q => q.1
  | .error _ => c5_state

/-- C5 witness: the amended preservation applied to a concrete TIMER
tick starting from the "BLENDER_EEVEE" state. -/
theorem C5_witness : c5_after_tick.env.render_engine = c5_state.env.render_engine :=
  C5_render_engine_unchanged_amended.2 host0 resolve0 ModalEvent.TIMER c5_state c5_after_tick
    ModalResult.FINISHED (by decide)

/-! ## Claim C10: only the first material slot is touched -/

/-- C10: the graph-mutating operations — attaching the temporary image
node (`bake_image_pass`, which also finds the principled node and
applies the metallic/roughness swap), the per-pass cleanup
(`cleanup_after_bake`, which removes the node and reverts the swap)
and the tick step `bake_next_pass` that drives them — read and write
only the material referenced by the target object's first material
slot; every other entry of the material table, the object table and
the render engine are unchanged. -/
theorem C10_only_first_slot_material_touched :
    (∀ (img : ImageData) (bp : BakingPass) (s s1 : OpState),
      bake_image_pass img bp s = .ok s1 → preserves_other_materials s s1) ∧
    (∀ (host : HostEnv) (s s1 : OpState),
      cleanup_after_bake host s = .ok s1 → preserves_other_materials s s1) ∧
    (∀ (host : HostEnv) (resolve : BakingPass → ImageData) (s s1 : OpState) (r : ModalResult),
      bake_next_pass host resolve s = .ok (s1, r) → preserves_other_materials s s1) :=
  ⟨fun _ _ _ _ h => bake_image_pass_frame h,
   fun _ _ _ h => cleanup_after_bake_frame h,
   fun _ _ _ _ _ h => bake_next_pass_frame h⟩

/-- A scene with a second material that no slot of the target's first
position references. -/
def c10_state : OpState :=
  { base_state with env :=
      { simple_env with materials :=
          [("Mat", ⟨some ⟨[]⟩⟩), ("Mat2", ⟨some ⟨[ShaderNode.other "ShaderNodeMixRGB"]⟩⟩)] } }

/-- The state after attaching the temporary image node on `c10_state`. -/
def c10_state1 : OpState :=
  match bake_image_pass img0 BakingPass.DIFFUSE c10_state with
  | .ok s => s
  | .error _ => c10_state

/-- C10 witness: the frame theorem applied to a concrete
`bake_image_pass` run, showing the second material is untouched. -/
theorem C10_witness :
    c10_state1.env.materials.lookup "Mat2" = c10_state.env.materials.lookup "Mat2" :=
  (C10_only_first_slot_material_touched.1 img0 BakingPass.DIFFUSE c10_state c10_state1
      (by decide)).2.2.2 "Mat2"
    (by
      intro n hn
      have h2 : (Except.ok "Mat" : Except PyError String) = Except.ok n := by
        rw [← hn]
        rfl
      injection h2 with h3
      subst h3
      decide)

/-! ## Claim C2: tick gating -/

/-- A state with one queued pass and nothing in flight. -/
def c2_state : OpState := { base_state with pass_queue := [BakingPass.DIFFUSE], num_passes := 1 }

/-- The state after one idle-host tick on `c2_state`. -/
def c2_state1 : OpState :=
  match bake_next_pass host0 resolve0 c2_state with
  | .ok q => q.1
  | .error _ => c2_state

/-- C2 counterexample: the claim requires that a tick starts a new pass
only when the job query is idle AND a minimum wait has elapsed since
the pass started.  The code records no timestamps and checks no
threshold: with zero elapsed time and a one-unit threshold the tick
still submits a new bake job, refuting the universally quantified
claim. -/
theorem C2_claim_counterexample :
    ¬ (∀ (elapsed min_wait : ℕ) (host : HostEnv) (resolve : BakingPass → ImageData)
        (s s1 : OpState) (r : ModalResult),
        bake_next_pass host resolve s = .ok (s1, r) →
        s.baking_jobs.length < s1.baking_jobs.length →
        host.job_running = false ∧ min_wait ≤ elapsed) := by
  intro hclaim
  have h := hclaim 0 1 host0 resolve0 c2_state c2_state1 ModalResult.RUNNING_MODAL
    (by decide) (by decide)
  exact absurd h.2 (by decide)

/-- C2 amended: on a timer tick, if the host reports a bake job active
the tick is a no-op returning the state unchanged; a new bake job is
submitted only when the job query reports inactive.  There is no
minimum-wait condition: the code records no pass-start time and the
1-second timer interval is the only pacing. -/
theorem C2_tick_gating_amended :
    (∀ (host : HostEnv) (resolve : BakingPass → ImageData) (s : OpState),
      host.job_running = true →
      bake_next_pass host resolve s = .ok (s, ModalResult.RUNNING_MODAL)) ∧
    (∀ (host : HostEnv) (resolve : BakingPass → ImageData) (s s1 : OpState) (r : ModalResult),
      bake_next_pass host resolve s = .ok (s1, r) →
      s.baking_jobs.length < s1.baking_jobs.length → host.job_running = false) := by
  constructor
  · intro host resolve s h
    simp [bake_next_pass, h]
  · intro host resolve s s1 r h hlen
    cases hj : host.job_running
    · rfl
    · simp [bake_next_pass, hj] at h
      obtain ⟨h1, h2⟩ := h
      subst h1
      exact absurd hlen (lt_irrefl _)

/-- C2 witness: a busy-host tick is a no-op on the concrete state. -/
theorem C2_witness :
    bake_next_pass busy_host resolve0 c2_state = .ok (c2_state, ModalResult.RUNNING_MODAL) :=
  C2_tick_gating_amended.1 busy_host resolve0 c2_state rfl

/-! ## Claim C3: stack-order pass consumption -/

/-- The C3 configuration: diffuse (without alpha) and normal selected. -/
def props_c3 : OperatorProperties :=
  ⟨"Cube", "Cube", false, "//", 1024, 1024, 4, "UVMap", true, false, false, false, true, false⟩

/-- Quiescent state carrying the C3 configuration. -/
def c3_state0 : OpState := { base_state with props := props_c3 }

/-- First idle-host tick after `execute`. -/
def c3_run1 : Except PyError (OpState × ModalResult) :=
  bake_next_pass host0 resolve0 (execute c3_state0).1

/-- Second idle-host tick. -/
def c3_run2 : Except PyError (OpState × ModalResult) :=
  c3_run1.bind (fun q => bake_next_pass host0 resolve0 q.1)

/-- C3: the queue `execute` builds is `get_baking_passes` in catalog
declaration order, and an idle-host tick pops the LAST queue element
(Python `list.pop()`) and hands it to `bake_image_pass` — the queue is
consumed as a stack.  Concretely, with passes diffuse+normal the queue
starts as DIFFUSE, NORMAL; the first tick bakes NORMAL and the second
bakes DIFFUSE. -/
theorem C3_stack_order :
    (∀ s : OpState, (execute s).1.pass_queue = get_baking_passes s.props) ∧
    (∀ (host : HostEnv) (resolve : BakingPass → ImageData) (s : OpState) (next : BakingPass),
      host.job_running = false → s.current_image_node = none → s.running_pass = none →
      s.pass_queue.getLast? = some next →
      bake_next_pass host resolve s =
        (bake_image_pass (resolve next) next
          { s with running_pass := none, pass_queue := s.pass_queue.dropLast }).map
          (fun s2 => (s2, ModalResult.RUNNING_MODAL))) ∧
    get_baking_passes props_c3 = [BakingPass.DIFFUSE, BakingPass.NORMAL] ∧
    c3_run1.map (fun q => (q.1.running_pass, q.2)) =
      .ok (some BakingPass.NORMAL, ModalResult.RUNNING_MODAL) ∧
    c3_run2.map (fun q => (q.1.running_pass, q.1.baking_jobs.map BakeJob.pass_type)) =
      .ok (some BakingPass.DIFFUSE, ["NORMAL", "DIFFUSE"]) := by
  refine ⟨fun s => rfl, ?_, by decide, by decide, by decide⟩
  intro host resolve s next hjob hcur hrun hlast
  have hclean : cleanup_after_bake host s = .ok { s with running_pass := none } := by
    simp [cleanup_after_bake, hcur, hrun]
  simp only [bake_next_pass, hjob, Bool.false_eq_true, if_false, hclean]
  simp only [hlast]
  cases hres : bake_image_pass (resolve next) next
      { s with running_pass := none, pass_queue := s.pass_queue.dropLast } <;>
    simp [Except.map, hres]

/-- C3 witness: the stack-pop equation applied to the concrete
post-`execute` state, whose queue is DIFFUSE, NORMAL: the popped pass
is NORMAL. -/
theorem C3_witness :
    bake_next_pass host0 resolve0 (execute c3_state0).1 =
      (bake_image_pass (resolve0 BakingPass.NORMAL) BakingPass.NORMAL
        { (execute c3_state0).1 with
            running_pass := none
            pass_queue := (execute c3_state0).1.pass_queue.dropLast }).map
        (fun s2 => (s2, ModalResult.RUNNING_MODAL)) :=
  C3_stack_order.2.1 host0 resolve0 (execute c3_state0).1 BakingPass.NORMAL rfl rfl rfl
    (by decide)

/-! ## Claim C4: metallic pass with no principled BSDF node -/

/-- A node tree without a principled BSDF node. -/
def c4_tree : NodeTree := ⟨[ShaderNode.other "ShaderNodeOutputMaterial"]⟩

/-- The C4 scenario: metallic-only configuration over a material whose
tree has no principled BSDF node. -/
def c4_state : OpState :=
  { base_state with
      props := ⟨"Sphere", "Sphere", false, "//", 1024, 1024, 4, "UVMap",
        false, false, false, true, false, false⟩,
      env := ⟨[⟨"Sphere", "MESH", true, ["UVMap"], ["Mat4"]⟩],
        [("Mat4", ⟨some c4_tree⟩)], "CYCLES"⟩ }

/-- C4 counterexample: when no principled BSDF node exists, the claim
says no temporary image node is created — but the code creates and
attaches the image-texture node (the slot-0 tree grows from 1 to 2
nodes and `_current_image_node` is set) BEFORE it looks for the
principled node and aborts. -/
theorem C4_claim_counterexample :
    (bake_image_pass img0 BakingPass.METALLIC c4_state).map
        (fun s => (s.current_image_node.isSome,
          (s.env.materials.lookup "Mat4").map (fun m => m.node_tree.map (fun nt => nt.nodes.length)),
          s.reports.contains "Cannot bake metallic pass. Could not find Principled BSDF Node.",
          s.baking_jobs.length)) =
      .ok (true, some (some 2), true, 0) := by decide

/-- C4 amended: when the metallic pass starts and the slot-0 material
has no principled BSDF node, the pass is abandoned with a warning
before any bake job is submitted and before any metallic/roughness
mutation: `_running_pass` stays unchanged so the later cleanup reverts
no sockets — but the temporary image-texture node HAS already been
created and attached to the graph (and is recorded in
`_current_image_node`). -/
theorem C4_metallic_no_bsdf_amended :
    ∀ (img : ImageData) (s : OpState) (n : String) (mat : Material) (nt : NodeTree),
      get_target_material_name s = .ok n →
      s.env.materials.lookup n = some mat →
      mat.node_tree = some nt →
      (get_principled_bsdf_node nt).1 = none →
      ∃ node : TexImageNode,
        bake_image_pass img BakingPass.METALLIC s = .ok
          { s with
              env := { s.env with
                  materials :=
                    assoc_update s.env.materials n
                      ⟨some { nodes := nt.nodes ++ [ShaderNode.texImage node] }⟩ }
              current_image_node := some node
              reports := s.reports ++ (get_principled_bsdf_node nt).2 ++
                ["Cannot bake metallic pass. Could not find Principled BSDF Node."] } := by
  intro img s n mat nt hname hlookup htree hbsdf
  refine ⟨⟨{ img with alpha_mode := "NONE", is_data_colorspace := true }, true⟩, ?_⟩
  simp only [bake_image_pass, get_target_material, hname, hlookup, htree,
    set_target_material_tree, BakingPass.value]
  simp [get_principled_bsdf_node_append_tex, hbsdf]

/-- C4 witness: the amended behaviour on the concrete no-BSDF scene. -/
theorem C4_witness :
    ∃ node : TexImageNode,
      bake_image_pass img0 BakingPass.METALLIC c4_state = .ok
        { c4_state with
            env := { c4_state.env with
                materials :=
                  assoc_update c4_state.env.materials "Mat4"
                    ⟨some { nodes := c4_tree.nodes ++ [ShaderNode.texImage node] }⟩ }
            current_image_node := some node
            reports := c4_state.reports ++ (get_principled_bsdf_node c4_tree).2 ++
              ["Cannot bake metallic pass. Could not find Principled BSDF Node."] } :=
  C4_metallic_no_bsdf_amended img0 c4_state "Mat4" ⟨some c4_tree⟩ c4_tree rfl rfl rfl (by decide)

/-! ## Claim C6: persistence failure handling -/

/-- The temporary image node of the C6 scenario: its image has pixel
data and is packed. -/
def node6 : TexImageNode := ⟨⟨"Cube-diffuse", true, "NONE", false, true, ""⟩, true⟩

/-- The C6 scenario: a diffuse pass just finished, the temporary node
is attached, and the configuration saves images to the filesystem. -/
def c6_state : OpState :=
  { base_state with
      props := ⟨"Cube", "Cube", true, "//", 1024, 1024, 4, "UVMap",
        true, false, true, false, true, false⟩,
      env := ⟨[mesh_obj], [("Mat", ⟨some ⟨[ShaderNode.texImage node6]⟩⟩)], "CYCLES"⟩,
      current_image_node := some node6,
      running_pass := some BakingPass.DIFFUSE }

/-- C6 counterexample: a failing `img.save(...)` during per-pass
cleanup is NOT caught — `cleanup_after_bake` aborts with the raised
exception, so the temporary node is never removed and no state revert
takes place. -/
theorem C6_claim_counterexample :
    cleanup_after_bake host_savefail c6_state = .error PyError.saveError := by decide

/-- C6 amended: the only persistence failure the code guards is an
image with no pixel data, which is downgraded to a warning while the
cleanup still removes the temporary node and continues; an exception
raised by the external file write propagates out of
`cleanup_after_bake` uncaught, skipping the node removal and the rest
of the per-pass revert. -/
theorem C6_save_failure_amended :
    (∀ (host : HostEnv) (s : OpState) (node : TexImageNode),
      s.current_image_node = some node →
      node.image.has_data = true →
      s.props.is_image_save_to_file_prop = true →
      host.save_ok = false →
      cleanup_after_bake host s = .error PyError.saveError) ∧
    (∀ (host : HostEnv) (s : OpState) (node : TexImageNode) (n : String) (nt : NodeTree),
      s.current_image_node = some node →
      node.image.has_data = false →
      s.running_pass ≠ some BakingPass.METALLIC →
      get_target_material_name s = .ok n →
      s.env.materials.lookup n = some ⟨some nt⟩ →
      cleanup_after_bake host s = .ok
        { s with
            env := { s.env with
                materials :=
                  assoc_update s.env.materials n
                    ⟨some { nodes := nt.nodes.erase (ShaderNode.texImage node) }⟩ }
            current_image_node := none
            reports := s.reports ++
              ["Cannot save image " ++ node.image.name ++ " because it has not data."]
            saved_images := s.saved_images ++ [node.image]
            running_pass := none }) := by
  constructor
  · intro host s node hcur hdata hsave hok
    simp [cleanup_after_bake, save_result_image, hcur, hdata, hsave, hok]
  · intro host s node n nt hcur hdata hrun hname hlookup
    simp only [cleanup_after_bake, save_result_image, hcur, hdata, Bool.not_false,
      if_true, get_target_material, hname, hlookup, set_target_material_tree]
    simp [hrun]

/-- C6 witness: the uncaught-save-failure behaviour on the concrete
scene. -/
theorem C6_witness :
    cleanup_after_bake host_savefail c6_state = .error PyError.saveError :=
  C6_save_failure_amended.1 host_savefail c6_state node6 rfl rfl rfl rfl

end LxrBaker
